import Mathlib

/-!
Shallow embedding of the `benchmarks` Stable Diffusion DreamBooth repository:
`stable-diffusion/model.py` (the `StableDiffusion` Composer model wrapper and
`build_stable_diffusion_model`) and
`examples/stable_diffusion_dreambooth/main.py` (the training driver).

Tensors are modelled batch-first: a `Tensor` is a list of batch elements,
each element a flat list of rational values.  The pretrained networks
(unet, vae, text encoder, tokenizer) and the two diffusers schedulers are
external opaque components; they are modelled as function-valued fields of
structures, so every theorem is quantified over their behaviour.  Random
draws made by torch (`randint`, `randn_like`, the VAE latent sample) are
passed as explicit inputs, which is the explicit-state rendering of the
ambient torch RNG.  Python exceptions are modelled with `Except PyError`.
-/

namespace SD

/-- One batch element, flattened to a list of values. -/
abbrev Row := List ℚ

/-- A batched tensor: the outer list is the batch dimension
(`torch.cat` on dim 0 is list append). -/
abbrev Tensor := List Row

/-- Elementwise scalar multiplication, `c * t`. -/
def tScale (c : ℚ) (t : Tensor) : Tensor :=
  t.map (fun r => r.map (fun v => c * v))

/-- Elementwise addition of two tensors. -/
def tAdd (a b : Tensor) : Tensor :=
  List.zipWith (fun r s => List.zipWith (· + ·) r s) a b

/-- Elementwise subtraction of two tensors. -/
def tSub (a b : Tensor) : Tensor :=
  List.zipWith (fun r s => List.zipWith (· - ·) r s) a b

/-- `x.chunk(2)` on the batch dimension: torch makes the first chunk of
size `⌈n/2⌉` and the second chunk the rest. -/
def chunk2 (x : Tensor) : Tensor × Tensor :=
  (x.take ((x.length + 1) / 2), x.drop ((x.length + 1) / 2))

/-- Python exceptions raised by this repository's code. -/
inductive PyError
  /-- `raise ValueError(msg)` -/
  | valueError (msg : String)
  /-- `TypeError: fn() got an unexpected keyword argument kwarg` -/
  | unexpectedKeywordArgument (fn : String) (kwarg : String)
  /-- `AttributeError: obj object has no attribute attr` -/
  | attributeError (obj : String) (attr : String)
deriving DecidableEq, Repr

/-- Python truthiness of an optional integer, as tested by `x or y`:
`None` and `0` are falsy. -/
def pyTruthy : Option Nat → Bool
  | none => false
  | some n => n != 0

/-- Calls to the external networks performed during `forward`, in order. -/
inductive Event
  | vaeEncode
  | textEncode
  | unetCall
deriving DecidableEq, Repr

/-- The pretrained sub-networks used by `StableDiffusion.forward`, opaque
differentiable functions per the spec.  `vae_encode` stands for
`vae.encode(x)['latent_dist'].sample().data` (the latent sample's RNG is
absorbed into the function), `unet x t c` stands for
`unet(x, t, c)['sample']`. -/
structure TrainNets where
  vae_encode : Tensor → Tensor
  text_encoder : Tensor → Tensor
  unet : Tensor → List Nat → Tensor → Tensor

/-- The training noise scheduler (`noise_scheduler`): a DDPM scheduler with
`len(noise_scheduler)` timesteps, a configured `config.prediction_type`,
and the opaque `add_noise` / `get_velocity` operations. -/
structure TrainSched where
  numTimesteps : Nat
  prediction_type : String
  add_noise : Tensor → Tensor → List Nat → Tensor
  get_velocity : Tensor → Tensor → List Nat → Tensor

/-- The magical latent scaling constant 0.18215. -/
def latentScale : ℚ := 18215 / 100000

namespace StableDiffusion

/-- `StableDiffusion.forward(batch)` from `model.py`.  The batch is the pair
(`batch[self.image_key]`, `batch[self.caption_key]`); the random draws
`timesteps = torch.randint(0, len(noise_scheduler), (B,))` and
`noise = torch.randn_like(latents)` are explicit inputs.  Returns the
`(prediction, target)` pair or the raised error, together with the trace of
external network calls made before returning. -/
def forward (nets : TrainNets) (sched : TrainSched)
    (image conditioning_ids : Tensor) (timesteps : List Nat) (noise : Tensor) :
    Except PyError (Tensor × Tensor) × List Event :=
  let latents := nets.vae_encode image
  let latents := tScale latentScale latents
  let conditioning := nets.text_encoder conditioning_ids
  let noised_latents := sched.add_noise latents noise timesteps
  if sched.prediction_type = "epsilon" then
    (.ok (nets.unet noised_latents timesteps conditioning, noise),
     [.vaeEncode, .textEncode, .unetCall])
  else if sched.prediction_type = "v_prediction" then
    (.ok (nets.unet noised_latents timesteps conditioning,
          sched.get_velocity latents noise timesteps),
     [.vaeEncode, .textEncode, .unetCall])
  else
    (.error (.valueError ("Unknown prediction type " ++ sched.prediction_type)),
     [.vaeEncode, .textEncode])

end StableDiffusion

/-- Everything `StableDiffusion.generate` consumes: the pretrained networks,
the unet channel count, the inference scheduler (`inference_scheduler`, an
LMS discrete scheduler), and the seeded gaussian sampler.
`tokenizer ps` stands for tokenizing the prompt list with max-length
padding; `randn seed i n` is the `i`-th batch row of
`torch.randn(shape, generator=torch.manual_seed(seed))` with `n` values per
row; `step p t l` is `inference_scheduler.step(p, t, l).prev_sample`. -/
structure GenModel where
  tokenizer : List String → Tensor
  text_encoder : Tensor → Tensor
  unet : Tensor → Nat → Tensor → Tensor
  unet_in_channels : Nat
  vae_decode : Tensor → Tensor
  randn : Nat → Nat → Nat → Row
  init_noise_sigma : ℚ
  set_timesteps : Nat → List Nat
  scale_model_input : Tensor → Nat → Tensor
  step : Tensor → Nat → Tensor → Tensor

/-- One record per `inference_scheduler.step` call in the reverse-diffusion
loop: the guided prediction passed in, the timestep, and the latents the
iteration started from. -/
structure StepCall where
  pred : Tensor
  t : Nat
  latents : Tensor
deriving DecidableEq, Repr

/-- A generated output image, as its flat list of 8-bit pixel values.
(The `(0,2,3,1)` permutation before `numpy()` only relabels within-image
indices and is dropped by the flat-row model.) -/
abbrev Image := List ℕ

/-- numpy `.round()`: round half to even. -/
def npRound (q : ℚ) : ℤ :=
  if q - ⌊q⌋ < 1 / 2 then ⌊q⌋
  else if 1 / 2 < q - ⌊q⌋ then ⌊q⌋ + 1
  else if ⌊q⌋ % 2 = 0 then ⌊q⌋ else ⌊q⌋ + 1

/-- Per-pixel postprocessing at the end of `generate`:
`(image / 2 + 0.5).clamp(0, 1)`, then `(image * 255).round().astype("uint8")`. -/
def postprocessRow (r : Row) : Image :=
  r.map (fun v => ((npRound ((max 0 (min 1 (v / 2 + 1 / 2))) * 255)).toNat % 256))

namespace StableDiffusion

/-- The body of one iteration of `generate`'s reverse-diffusion loop,
returning both the record of the `step` call it makes and the new latents:
duplicate the latents (`torch.cat([latents] * 2)`), scale the model input,
run the unet once, `chunk(2)` the prediction into the unconditional and
text-conditional halves, apply classifier-free guidance
(`noise_pred_uncond + guidance_scale * (noise_pred_text - noise_pred_uncond)`),
and step the scheduler. -/
def genIter (m : GenModel) (guidance_scale : ℚ) (text_embeddings : Tensor)
    (t : Nat) (latents : Tensor) : StepCall × Tensor :=
  let latent_model_input := latents ++ latents
  let latent_model_input := m.scale_model_input latent_model_input t
  let noise_pred := m.unet latent_model_input t text_embeddings
  let chunks := chunk2 noise_pred
  let noise_pred_uncond := chunks.1
  let noise_pred_text := chunks.2
  let noise_pred :=
    List.zipWith
      (fun r s => List.zipWith (fun a b => a + guidance_scale * (b - a)) r s)
      noise_pred_uncond noise_pred_text
  let call : StepCall := { pred := noise_pred, t := t, latents := latents }
  (call, m.step noise_pred t latents)

/-- The reverse-diffusion loop of `generate` over the scheduler's timestep
sequence, accumulating the trace of `step` calls. -/
def genLoop (m : GenModel) (guidance_scale : ℚ) (text_embeddings : Tensor) :
    List Nat → Tensor → List StepCall × Tensor
  | [], latents => ([], latents)
  | t :: ts, latents =>
    let r := genIter m guidance_scale text_embeddings t latents
    let rest := genLoop m guidance_scale text_embeddings ts r.2
    (r.1 :: rest.1, rest.2)

/-- `StableDiffusion.generate` from `model.py`.  `ambientRng` is the torch
global RNG state at call time; the source immediately executes
`generator = torch.manual_seed(32)`, so the initial latent noise is drawn
from seed 32 and `ambientRng` is never consulted.  `negative_prompt`,
`num_images_per_prompt` and `eta` are parameters of the source signature
that its body never reads; `batch_size` is hardcoded to 1.
`height = height or self.unet.config.sample_size * self.vae_scale_factor`
short-circuits on a truthy `height`; on a falsy one it evaluates the
fallback, and since `StableDiffusion.__init__` never assigns
`self.vae_scale_factor`, that lookup raises `AttributeError` (likewise for
`width` on the next line). -/
def generate (m : GenModel) (ambientRng : Nat) (prompt : List String)
    (height width : Option Nat) (num_inference_steps : Nat)
    (guidance_scale : ℚ) (negative_prompt : Option (List String))
    (num_images_per_prompt : Nat) (eta : ℚ) : Except PyError (List Image) :=
  let batch_size := 1
  if pyTruthy height = false then
    .error (.attributeError "StableDiffusion" "vae_scale_factor")
  else if pyTruthy width = false then
    .error (.attributeError "StableDiffusion" "vae_scale_factor")
  else
    let height := height.getD 0
    let width := width.getD 0
    let seed := 32
    let text_input := m.tokenizer prompt
    let uncond_input := m.tokenizer (List.replicate batch_size "")
    let text_embeddings := m.text_encoder text_input
    let uncond_embeddings := m.text_encoder uncond_input
    let text_embeddings := uncond_embeddings ++ text_embeddings
    let rowNumel := m.unet_in_channels * (height / 8) * (width / 8)
    let latents := (List.range batch_size).map (fun i => m.randn seed i rowNumel)
    let timesteps := m.set_timesteps num_inference_steps
    let latents := tScale m.init_noise_sigma latents
    let latents := (genLoop m guidance_scale text_embeddings timesteps latents).2
    let latents := tScale (1 / latentScale) latents
    let image := m.vae_decode latents
    .ok (image.map postprocessRow)

/-- The trace of `inference_scheduler.step` calls a `generate` call makes,
with the same setup as `generate` itself; when `generate` raises the
`AttributeError` before the loop, no `step` call is made. -/
def generateStepTrace (m : GenModel) (prompt : List String)
    (height width : Option Nat) (num_inference_steps : Nat)
    (guidance_scale : ℚ) : List StepCall :=
  let batch_size := 1
  if pyTruthy height = false then []
  else if pyTruthy width = false then []
  else
    let height := height.getD 0
    let width := width.getD 0
    let seed := 32
    let text_input := m.tokenizer prompt
    let uncond_input := m.tokenizer (List.replicate batch_size "")
    let text_embeddings := m.text_encoder text_input
    let uncond_embeddings := m.text_encoder uncond_input
    let text_embeddings := uncond_embeddings ++ text_embeddings
    let rowNumel := m.unet_in_channels * (height / 8) * (width / 8)
    let latents := (List.range batch_size).map (fun i => m.randn seed i rowNumel)
    let timesteps := m.set_timesteps num_inference_steps
    let latents := tScale m.init_noise_sigma latents
    (genLoop m guidance_scale text_embeddings timesteps latents).1

end StableDiffusion

/-- One `from_pretrained` call: the loaded class, the name-or-path argument,
and the `subfolder` keyword if given. -/
structure PretrainedLoad where
  cls : String
  path : String
  subfolder : Option String
deriving DecidableEq, Repr

/-- What `build_stable_diffusion_model` returns, observationally: the
sequence of `from_pretrained` loads it performed and the keyword arguments
it forwarded into the `StableDiffusion` constructor. -/
structure BuiltModel where
  loads : List PretrainedLoad
  train_text_encoder : Bool
  image_key : String
  caption_key : String
deriving DecidableEq, Repr

/-- `build_stable_diffusion_model` from `model.py`.  Its first statement
rebinds `model_name_or_path = "CompVis/stable-diffusion-v1-4"`, so the
caller's argument is dead.  (The `is_xformers_available()` attention toggle
is a device-local optimization with no observable effect here.) -/
def build_stable_diffusion_model (model_name_or_path : String)
    (train_text_encoder : Bool := false) (image_key : String := "image_tensor")
    (caption_key : String := "input_ids") : BuiltModel :=
  let model_name_or_path := "CompVis/stable-diffusion-v1-4"
  { loads :=
      [{ cls := "UNet2DConditionModel", path := model_name_or_path, subfolder := some "unet" },
       { cls := "AutoencoderKL", path := model_name_or_path, subfolder := some "vae" },
       { cls := "CLIPTextModel", path := model_name_or_path, subfolder := some "text_encoder" },
       { cls := "DDPMScheduler", path := model_name_or_path, subfolder := some "scheduler" },
       { cls := "LMSDiscreteScheduler", path := model_name_or_path, subfolder := some "scheduler" },
       { cls := "CLIPTokenizer", path := model_name_or_path, subfolder := some "tokenizer" },
       { cls := "StableDiffusionPipeline", path := model_name_or_path, subfolder := none }],
    train_text_encoder := train_text_encoder,
    image_key := image_key,
    caption_key := caption_key }

/-! ## The training driver `main.py` -/

/-- Python keyword-argument binding: the first keyword in the call that is
not a parameter of the callee, if any.  CPython raises
`TypeError: fn() got an unexpected keyword argument k` for it. -/
def firstUnexpectedKwarg (params kwargs : List String) : Option String :=
  kwargs.find? (fun k => !params.contains k)

/-- The parameters of `build_stable_diffusion_model` in `model.py`. -/
def buildModelParams : List String :=
  ["model_name_or_path", "train_text_encoder", "image_key", "caption_key"]

/-- The keywords `main` passes to `build_stable_diffusion_model`. -/
def mainBuildModelKwargs : List String :=
  ["model_name_or_path", "train_text_encoder", "train_unet",
   "num_images_per_prompt", "image_key", "caption_key"]

/-- The parameters of `StableDiffusion.generate` in `model.py`
(after `self`). -/
def generateParams : List String :=
  ["prompt", "height", "width", "num_inference_steps", "guidance_scale",
   "negative_prompt", "num_images_per_prompt", "eta"]

/-- The keywords `main` passes to `model.generate` in the
prior-preservation loop (the prompt is positional). -/
def mainGenerateKwargs : List String :=
  ["num_images_per_prompt", "disable_progress_bar"]

/-- `config.grad_accum`: the string `"auto"` or an integer. -/
inductive GradAccum
  | auto
  | num (n : Nat)
deriving DecidableEq, Repr

/-- The configuration fields of `main` that decide the claims.  `cuda` is
`torch.cuda.is_available()`; `curClassImages` is the number of files the
class-image directory holds when `main` runs
(`len(list(class_images_dir.iterdir()))`). -/
structure MainConfig where
  grad_accum : GradAccum
  cuda : Bool
  use_prior_preservation : Bool
  num_class_images : Nat
  curClassImages : Nat
  eval_device_batch_size : Nat
  class_prompt : String
deriving DecidableEq, Repr

/-- The stages of `main`, in program order. -/
inductive Stage
  | seedAll
  | gradAccumCheck
  | batchSizeCalc
  | buildModel
  | priorGeneration
  | dataloaders
  | training
deriving DecidableEq, Repr

/-- A class image persisted by the prior-preservation loop, as its
filename: `f"{example['index'][i] + cur_class_images}-{hash_image}.jpg"`
where `hash_image` is the SHA-1 of the image bytes. -/
structure SavedImage where
  index : Nat
  sha1hash : String
deriving DecidableEq, Repr

/-- One batch yielded by the prompt dataloader: the prompts and their
dataset indices. -/
structure PromptBatch where
  prompt : List String
  index : List Nat
deriving DecidableEq, Repr

/-- Split an indexed dataset into dataloader batches of size `bs`,
carrying the current partial batch in `acc`. -/
def chunkBatches (bs : Nat) (acc : List (Nat × String)) :
    List (Nat × String) → List PromptBatch
  | [] =>
    if acc.isEmpty then []
    else [{ prompt := acc.map (·.2), index := acc.map (·.1) }]
  | x :: xs =>
    let acc := acc ++ [x]
    if acc.length = bs then
      { prompt := acc.map (·.2), index := acc.map (·.1) } :: chunkBatches bs [] xs
    else chunkBatches bs acc xs

/-- Modelled from the spec: `build_prompt_dataloader` lives in the
repository's `data.py`, which is not under `src/`.  Per the spec it wraps
a list of prompts into an indexed dataloader with the given batch size,
yielding batches with `prompt` and `index` fields. -/
def build_prompt_dataloader (prompts : List String) (batch_size : Nat) :
    List PromptBatch :=
  chunkBatches batch_size [] prompts.enum

/-- The call `model.generate(example['prompt'], num_images_per_prompt=1,
disable_progress_bar=True)` from `main`'s prior-preservation loop, bound
against `StableDiffusion.generate`'s parameter list.  `genImages` is the
list of image byte strings a successful call would return. -/
def mainCallGenerate (genImages : PromptBatch → List String)
    (b : PromptBatch) : Except PyError (List String) :=
  match firstUnexpectedKwarg generateParams mainGenerateKwargs with
  | some k => .error (.unexpectedKeywordArgument "generate" k)
  | none => .ok (genImages b)

/-- The body of the prior-preservation generation loop: for each batch,
call `model.generate`, then hash and save each returned image.  `sha1` is
the external `hashlib.sha1(...).hexdigest()`. -/
def priorGenLoop (genImages : PromptBatch → List String) (sha1 : String → String)
    (cur_class_images : Nat) : List PromptBatch → Except PyError (List SavedImage)
  | [] => .ok []
  | b :: bs => do
    let images ← mainCallGenerate genImages b
    let saved := (List.zip b.index images).map
      (fun p => { index := p.1 + cur_class_images, sha1hash := sha1 p.2 })
    let rest ← priorGenLoop genImages sha1 cur_class_images bs
    pure (saved ++ rest)

/-- The prior-preservation pre-generation step of `main`
(`if config.use_prior_preservation: ...`): compares the directory count
with `config.num_class_images` and, when short, runs the generation loop
over a dataloader of the duplicated class prompt.  Returns the list of
images written to disk, or the exception that aborted the step. -/
def priorPreservationStep (genImages : PromptBatch → List String)
    (sha1 : String → String) (cfg : MainConfig) :
    Except PyError (List SavedImage) :=
  if !cfg.use_prior_preservation then .ok []
  else
    let cur_class_images := cfg.curClassImages
    let images_to_generate := cfg.num_class_images - cur_class_images
    if cur_class_images < cfg.num_class_images then
      let batches := build_prompt_dataloader
        (List.replicate images_to_generate cfg.class_prompt)
        cfg.eval_device_batch_size
      priorGenLoop genImages sha1 cur_class_images batches
    else .ok []

/-- `main(config)` from `main.py`, up to the point where control would pass
to the external trainer: runs the stages in program order, records which
stages were entered, and stops at the first raised exception.
`calculate_batch_size_info`, seeding and the distributed bootstrap are
external collaborators modelled as non-failing glue per the spec. -/
def mainRun (genImages : PromptBatch → List String) (sha1 : String → String)
    (cfg : MainConfig) : Except PyError Unit × List Stage :=
  -- reproducibility.seed_all(config.seed); dist bootstrap (world size 1)
  let trace := [Stage.seedAll]
  -- if config.grad_accum == 'auto' and device == 'cpu': raise ValueError(...)
  let trace := trace ++ [Stage.gradAccumCheck]
  if cfg.grad_accum = GradAccum.auto ∧ cfg.cuda = false then
    (.error (.valueError
      "grad_accum=\"auto\" requires training with a GPU; please specify grad_accum as an integer"),
     trace)
  else
    -- calculate_batch_size_info (external, non-failing)
    let trace := trace ++ [Stage.batchSizeCalc]
    -- model = build_stable_diffusion_model(...): keyword binding happens
    -- before the callee body runs
    let trace := trace ++ [Stage.buildModel]
    match firstUnexpectedKwarg buildModelParams mainBuildModelKwargs with
    | some k =>
      (.error (.unexpectedKeywordArgument "build_stable_diffusion_model" k), trace)
    | none =>
      let trace := trace ++ [Stage.priorGeneration]
      match priorPreservationStep genImages sha1 cfg with
      | .error e => (.error e, trace)
      | .ok _ =>
        let trace := trace ++ [Stage.dataloaders, Stage.training]
        (.ok (), trace)

/-! ## Concrete instantiations of the external components, for evaluating
the embedded operations on closed inputs. -/

/-- Concrete training networks. -/
def testNets : TrainNets where
  vae_encode := id
  text_encoder := id
  unet := fun l _ c => tAdd l c

/-- Concrete training scheduler with a chosen `prediction_type`. -/
def testSched (pt : String) : TrainSched where
  numTimesteps := 10
  prediction_type := pt
  add_noise := fun l n _ => tAdd l n
  get_velocity := fun l n _ => tSub n l

/-- Concrete generation model: identity networks, one latent channel,
one value per latent row at 8x8 output. -/
def testGenModel : GenModel where
  tokenizer := fun ps => ps.map (fun _ => [1])
  text_encoder := id
  unet := fun l _ _ => l
  unet_in_channels := 1
  vae_decode := id
  randn := fun _ _ n => List.replicate n 1
  init_noise_sigma := 1
  set_timesteps := fun n => List.range n
  scale_model_input := fun t _ => t
  step := fun _ _ l => l

/-- Concrete driver configuration: GPU available, integer grad_accum,
prior preservation on, one class image wanted, empty directory. -/
def testConfig : MainConfig where
  grad_accum := .num 1
  cuda := true
  use_prior_preservation := true
  num_class_images := 1
  curClassImages := 0
  eval_device_batch_size := 1
  class_prompt := "a photo of a dog"

end SD

/-! ## Theorems -/

namespace SD

/-- C1: for every batch, if the training scheduler's configured
`prediction_type` is neither "epsilon" nor "v_prediction", `forward` raises
`ValueError("Unknown prediction type ...")` and the denoising network is
never invoked during that call. -/
theorem forward_unknown_prediction_type_raises (nets : TrainNets)
    (sched : TrainSched) (image conditioning_ids : Tensor)
    (timesteps : List Nat) (noise : Tensor)
    (h1 : sched.prediction_type ≠ "epsilon")
    (h2 : sched.prediction_type ≠ "v_prediction") :
    (StableDiffusion.forward nets sched image conditioning_ids timesteps noise).1 =
      .error (.valueError ("Unknown prediction type " ++ sched.prediction_type))
    ∧ Event.unetCall ∉
      (StableDiffusion.forward nets sched image conditioning_ids timesteps noise).2 := by
  refine ⟨?_, ?_⟩ <;> simp [StableDiffusion.forward, h1, h2]

/-- Witness for C1 at `prediction_type = "sample"`. -/
theorem forward_unknown_prediction_type_raises_witness :
    ((testSched "sample").prediction_type ≠ "epsilon")
    ∧ ((testSched "sample").prediction_type ≠ "v_prediction")
    ∧ ((StableDiffusion.forward testNets (testSched "sample")
          [[1]] [[2]] [0] [[3]]).1 =
        .error (.valueError ("Unknown prediction type "
          ++ (testSched "sample").prediction_type))
      ∧ Event.unetCall ∉
        (StableDiffusion.forward testNets (testSched "sample")
          [[1]] [[2]] [0] [[3]]).2) :=
  ⟨by decide, by decide,
   forward_unknown_prediction_type_raises testNets (testSched "sample")
     [[1]] [[2]] [0] [[3]] (by decide) (by decide)⟩

/-- C2: for every batch, with `prediction_type = "epsilon"` the forward
pass succeeds and the returned target (the second element of the result
pair) is exactly the injected noise tensor — the same tensor that
`add_noise` mixed into the latents. -/
theorem forward_epsilon_target_eq_noise (nets : TrainNets)
    (sched : TrainSched) (image conditioning_ids : Tensor)
    (timesteps : List Nat) (noise : Tensor)
    (h : sched.prediction_type = "epsilon") :
    StableDiffusion.forward nets sched image conditioning_ids timesteps noise =
      (.ok (nets.unet
              (sched.add_noise (tScale latentScale (nets.vae_encode image))
                noise timesteps)
              timesteps (nets.text_encoder conditioning_ids),
            noise),
       [.vaeEncode, .textEncode, .unetCall]) := by
  simp only [StableDiffusion.forward, if_pos h]

/-- Witness for C2 on a concrete batch. -/
theorem forward_epsilon_target_eq_noise_witness :
    (testSched "epsilon").prediction_type = "epsilon"
    ∧ StableDiffusion.forward testNets (testSched "epsilon")
        [[1]] [[2]] [0] [[3]] =
      (.ok (testNets.unet
              ((testSched "epsilon").add_noise
                (tScale latentScale (testNets.vae_encode [[1]])) [[3]] [0])
              [0] (testNets.text_encoder [[2]]),
            [[3]]),
       [.vaeEncode, .textEncode, .unetCall]) :=
  ⟨rfl,
   forward_epsilon_target_eq_noise testNets (testSched "epsilon")
     [[1]] [[2]] [0] [[3]] rfl⟩

/-- The inline per-row guidance combination of the loop body, rewritten
with the generic elementwise operations. -/
theorem zipWithGuidanceRow_eq (g : ℚ) :
    ∀ (r s : Row),
      List.zipWith (fun a b => a + g * (b - a)) r s
        = List.zipWith (· + ·) r
            ((List.zipWith (· - ·) s r).map (fun v => g * v))
  | [], _ => by simp
  | _ :: _, [] => by simp
  | a :: r, b :: s => by
    simp only [List.zipWith, List.map]
    exact congrArg _ (zipWithGuidanceRow_eq g r s)

/-- The inline guidance combination of the loop body equals
`tAdd u (tScale g (tSub c u))`. -/
theorem zipWithGuidance_eq (g : ℚ) :
    ∀ (u c : Tensor),
      List.zipWith
          (fun r s => List.zipWith (fun a b => a + g * (b - a)) r s) u c
        = tAdd u (tScale g (tSub c u))
  | [], _ => by simp [tAdd, tScale, tSub]
  | _ :: _, [] => by simp [tAdd, tScale, tSub]
  | r :: u, s :: c => by
    simp only [tAdd, tScale, tSub, List.zipWith, List.map]
    exact congrArg₂ _ (zipWithGuidanceRow_eq g r s) (zipWithGuidance_eq g u c)

/-- Every `step`-call record the loop produces carries as its prediction
the guidance combination of the chunk halves of one unet pass on the
duplicated recorded latents. -/
theorem genLoop_trace_pred (m : GenModel) (g : ℚ) (emb : Tensor) :
    ∀ (ts : List Nat) (latents : Tensor) (call : StepCall),
      call ∈ (StableDiffusion.genLoop m g emb ts latents).1 →
      call.pred =
        tAdd
          (chunk2 (m.unet (m.scale_model_input (call.latents ++ call.latents)
            call.t) call.t emb)).1
          (tScale g (tSub
            (chunk2 (m.unet (m.scale_model_input (call.latents ++ call.latents)
              call.t) call.t emb)).2
            (chunk2 (m.unet (m.scale_model_input (call.latents ++ call.latents)
              call.t) call.t emb)).1))
  | [], _, _, h => by simp [StableDiffusion.genLoop] at h
  | t :: ts, latents, call, h => by
    rw [StableDiffusion.genLoop] at h
    rcases List.mem_cons.mp h with h | h
    · subst h
      simp only [StableDiffusion.genIter]
      exact zipWithGuidance_eq g _ _
    · exact genLoop_trace_pred m g emb ts _ call h

/-- C3: in every iteration of `generate`'s reverse-diffusion loop, the
guided prediction handed to `inference_scheduler.step` equals
`uncond + guidance_scale * (cond - uncond)`, where `uncond` and `cond` are
the two `chunk(2)` halves of a single unet pass on the duplicated latent
batch with the concatenated (unconditional ++ prompt) embeddings. -/
theorem generate_step_receives_guided_prediction (m : GenModel)
    (prompt : List String) (height width : Option Nat)
    (num_inference_steps : Nat) (guidance_scale : ℚ) (call : StepCall)
    (hcall : call ∈ StableDiffusion.generateStepTrace m prompt height width
        num_inference_steps guidance_scale) :
    ∃ noise_pred,
      noise_pred = m.unet
          (m.scale_model_input (call.latents ++ call.latents) call.t) call.t
          (m.text_encoder (m.tokenizer (List.replicate 1 ""))
            ++ m.text_encoder (m.tokenizer prompt))
      ∧ call.pred = tAdd (chunk2 noise_pred).1
          (tScale guidance_scale
            (tSub (chunk2 noise_pred).2 (chunk2 noise_pred).1)) := by
  refine ⟨_, rfl, ?_⟩
  unfold StableDiffusion.generateStepTrace at hcall
  split at hcall
  · simp at hcall
  · split at hcall
    · simp at hcall
    · exact genLoop_trace_pred m guidance_scale _ _ _ call hcall

/-- Witness for C3: one loop iteration of the concrete model at an
explicit 8x8 resolution. -/
theorem generate_step_receives_guided_prediction_witness :
    (⟨[[1]], 0, [[1]]⟩ : StepCall) ∈
      StableDiffusion.generateStepTrace testGenModel ["p"]
        (some 8) (some 8) 1 2
    ∧ ∃ noise_pred,
        noise_pred = testGenModel.unet
            (testGenModel.scale_model_input ([[1]] ++ [[1]]) 0) 0
            (testGenModel.text_encoder (testGenModel.tokenizer
              (List.replicate 1 ""))
              ++ testGenModel.text_encoder (testGenModel.tokenizer ["p"]))
        ∧ ([[1]] : Tensor) = tAdd (chunk2 noise_pred).1
            (tScale 2 (tSub (chunk2 noise_pred).2 (chunk2 noise_pred).1)) :=
  ⟨by norm_num [StableDiffusion.generateStepTrace, StableDiffusion.genLoop,
     StableDiffusion.genIter, pyTruthy, chunk2, tScale, testGenModel],
   generate_step_receives_guided_prediction testGenModel ["p"]
     (some 8) (some 8) 1 2 ⟨[[1]], 0, [[1]]⟩
     (by norm_num [StableDiffusion.generateStepTrace, StableDiffusion.genLoop,
        StableDiffusion.genIter, pyTruthy, chunk2, tScale, testGenModel])⟩

/-- Guidance with scale 1 collapses a row pair to the conditional row. -/
theorem zipWithGuidanceRow_one :
    ∀ (r s : Row), r.length = s.length →
      List.zipWith (fun a b => a + 1 * (b - a)) r s = s
  | [], [], _ => rfl
  | a :: r, b :: s, h => by
    simp only [List.zipWith, List.cons.injEq]
    exact ⟨by ring, zipWithGuidanceRow_one r s (by simpa using h)⟩

/-- Guidance with scale 1 collapses a tensor pair of equal shape to the
conditional tensor. -/
theorem zipWithGuidance_one :
    ∀ (u c : Tensor), u.map List.length = c.map List.length →
      List.zipWith
        (fun r s => List.zipWith (fun a b => a + 1 * (b - a)) r s) u c = c
  | [], [], _ => rfl
  | r :: u, s :: c, h => by
    simp only [List.map, List.cons.injEq] at h
    simp only [List.zipWith, List.cons.injEq]
    exact ⟨zipWithGuidanceRow_one r s h.1, zipWithGuidance_one u c h.2⟩

/-- C4: with `guidance_scale = 1` the loop body's guided prediction is the
conditional chunk alone — the unconditional term cancels, so the `step`
input is identical to omitting guidance. -/
theorem genIter_guidance_one_eq_cond (m : GenModel) (text_embeddings : Tensor)
    (t : Nat) (latents : Tensor)
    (hshape :
      ((chunk2 (m.unet (m.scale_model_input (latents ++ latents) t) t
          text_embeddings)).1).map List.length
        = ((chunk2 (m.unet (m.scale_model_input (latents ++ latents) t) t
          text_embeddings)).2).map List.length) :
    (StableDiffusion.genIter m 1 text_embeddings t latents).1.pred
      = (chunk2 (m.unet (m.scale_model_input (latents ++ latents) t) t
          text_embeddings)).2 := by
  simp only [StableDiffusion.genIter]
  exact zipWithGuidance_one _ _ hshape

/-- Witness for C4 on the concrete model. -/
theorem genIter_guidance_one_eq_cond_witness :
    ((chunk2 (testGenModel.unet
        (testGenModel.scale_model_input ([[1]] ++ [[1]]) 0) 0 [[5]])).1).map
        List.length
      = ((chunk2 (testGenModel.unet
        (testGenModel.scale_model_input ([[1]] ++ [[1]]) 0) 0 [[5]])).2).map
        List.length
    ∧ (StableDiffusion.genIter testGenModel 1 [[5]] 0 [[1]]).1.pred
      = (chunk2 (testGenModel.unet
          (testGenModel.scale_model_input ([[1]] ++ [[1]]) 0) 0 [[5]])).2 :=
  ⟨by decide,
   genIter_guidance_one_eq_cond testGenModel [[5]] 0 [[1]] (by decide)⟩

/-- C6: `generate` never consults the ambient RNG state it is called
under, because `torch.manual_seed(32)` re-seeds the generator before the
initial latent noise is drawn — two calls with the same arguments under
different random states return identical outputs. -/
theorem generate_independent_of_ambient_rng (m : GenModel)
    (rng1 rng2 : Nat) (prompt : List String) (height width : Option Nat)
    (num_inference_steps : Nat) (guidance_scale : ℚ)
    (negative_prompt : Option (List String)) (num_images_per_prompt : Nat)
    (eta : ℚ) :
    StableDiffusion.generate m rng1 prompt height width num_inference_steps
        guidance_scale negative_prompt num_images_per_prompt eta
      = StableDiffusion.generate m rng2 prompt height width
        num_inference_steps guidance_scale negative_prompt
        num_images_per_prompt eta := rfl

/-- `tScale` preserves the batch dimension. -/
theorem tScale_length (c : ℚ) (t : Tensor) : (tScale c t).length = t.length :=
  List.length_map t _

/-- The reverse-diffusion loop preserves the batch dimension of the
latents whenever the scheduler's `step` does. -/
theorem genLoop_latents_length (m : GenModel)
    (hstep : ∀ p t l, (m.step p t l).length = l.length) (g : ℚ)
    (emb : Tensor) :
    ∀ (ts : List Nat) (latents : Tensor),
      ((StableDiffusion.genLoop m g emb ts latents).2).length = latents.length
  | [], _ => rfl
  | t :: ts, latents => by
    rw [StableDiffusion.genLoop]
    exact (genLoop_latents_length m hstep g emb ts _).trans
      (hstep _ t latents)

/-- C10 counterexample: with `height` and `width` omitted, `generate`
does not return a one-image list — it raises `AttributeError`, because
`StableDiffusion.__init__` never assigns `self.vae_scale_factor` and the
default-size fallback reads it. -/
theorem generate_default_height_attribute_error :
    StableDiffusion.generate testGenModel 0 ["p"] none none 1 2 none 1 1
      = .error (.attributeError "StableDiffusion" "vae_scale_factor") := rfl

/-- C10 (amended): for every call whose `height` and `width` are supplied
and nonzero (truthy, so the dead `vae_scale_factor` fallback is skipped),
`generate` returns a list of exactly one image, whatever the prompt list,
`negative_prompt`, `num_images_per_prompt` and `eta` are (the latent batch
size is hardcoded to 1), given that the scheduler's `step` and the vae
decoder preserve the batch dimension; and the `negative_prompt`,
`num_images_per_prompt` and `eta` arguments are never read.  With a falsy
`height` or `width` the call raises `AttributeError` instead. -/
theorem generate_single_image_unused_params (m : GenModel) (ambientRng : Nat)
    (prompt : List String) (height width : Option Nat)
    (num_inference_steps : Nat) (guidance_scale : ℚ)
    (negative_prompt negative_prompt2 : Option (List String))
    (num_images_per_prompt num_images_per_prompt2 : Nat) (eta eta2 : ℚ)
    (hheight : pyTruthy height = true) (hwidth : pyTruthy width = true)
    (hstep : ∀ p t l, (m.step p t l).length = l.length)
    (hdec : ∀ l, (m.vae_decode l).length = l.length) :
    (∃ images,
        StableDiffusion.generate m ambientRng prompt height width
            num_inference_steps guidance_scale negative_prompt
            num_images_per_prompt eta = .ok images
        ∧ images.length = 1)
    ∧ StableDiffusion.generate m ambientRng prompt height width
        num_inference_steps guidance_scale negative_prompt
        num_images_per_prompt eta
      = StableDiffusion.generate m ambientRng prompt height width
        num_inference_steps guidance_scale negative_prompt2
        num_images_per_prompt2 eta2 := by
  have hh : ¬pyTruthy height = false := by simp [hheight]
  have hw : ¬pyTruthy width = false := by simp [hwidth]
  constructor
  · simp only [StableDiffusion.generate]
    rw [if_neg hh, if_neg hw]
    exact ⟨_, rfl,
      by simp [hdec, tScale_length, genLoop_latents_length m hstep]⟩
  · rfl

/-- Witness for C10 on the concrete model at explicit 8x8 size, with two
prompts and changing unused arguments. -/
theorem generate_single_image_unused_params_witness :
    pyTruthy (some 8) = true
    ∧ (∀ p t l, (testGenModel.step p t l).length = l.length)
    ∧ (∀ l, (testGenModel.vae_decode l).length = l.length)
    ∧ ((∃ images,
          StableDiffusion.generate testGenModel 0 ["a", "b"] (some 8) (some 8)
            1 (3 / 2) none 5 1 = .ok images ∧ images.length = 1)
      ∧ StableDiffusion.generate testGenModel 0 ["a", "b"] (some 8) (some 8)
          1 (3 / 2) none 5 1
        = StableDiffusion.generate testGenModel 0 ["a", "b"] (some 8) (some 8)
          1 (3 / 2) (some ["x"]) 7 0) :=
  ⟨rfl, fun _ _ _ => rfl, fun _ => rfl,
   generate_single_image_unused_params testGenModel 0 ["a", "b"]
     (some 8) (some 8) 1 (3 / 2) none (some ["x"]) 5 7 1 0 rfl rfl
     (fun _ _ _ => rfl) (fun _ => rfl)⟩

/-- Closed-form characterization of `mainRun`: it never gets past model
construction — either the grad-accum check raises `ValueError` or the
`build_stable_diffusion_model` call raises `TypeError` on the unexpected
`train_unet` keyword. -/
theorem mainRun_eq (genImages : PromptBatch → List String)
    (sha1 : String → String) (cfg : MainConfig) :
    mainRun genImages sha1 cfg =
      if cfg.grad_accum = GradAccum.auto ∧ cfg.cuda = false then
        (.error (.valueError
          "grad_accum=\"auto\" requires training with a GPU; please specify grad_accum as an integer"),
         [Stage.seedAll, Stage.gradAccumCheck])
      else
        (.error (.unexpectedKeywordArgument "build_stable_diffusion_model"
            "train_unet"),
         [Stage.seedAll, Stage.gradAccumCheck, Stage.batchSizeCalc,
          Stage.buildModel]) := by
  unfold mainRun
  split
  · rfl
  · rfl

/-- C7: with `grad_accum = "auto"` on a CPU-only device, `main` raises
the configuration `ValueError` right after the check — before model
building, prior-preservation generation, dataloader construction or
training are reached. -/
theorem mainRun_auto_cpu_value_error (genImages : PromptBatch → List String)
    (sha1 : String → String) (cfg : MainConfig)
    (hauto : cfg.grad_accum = GradAccum.auto) (hcpu : cfg.cuda = false) :
    mainRun genImages sha1 cfg =
      (.error (.valueError
        "grad_accum=\"auto\" requires training with a GPU; please specify grad_accum as an integer"),
       [Stage.seedAll, Stage.gradAccumCheck])
    ∧ Stage.buildModel ∉ (mainRun genImages sha1 cfg).2
    ∧ Stage.priorGeneration ∉ (mainRun genImages sha1 cfg).2
    ∧ Stage.dataloaders ∉ (mainRun genImages sha1 cfg).2
    ∧ Stage.training ∉ (mainRun genImages sha1 cfg).2 := by
  rw [mainRun_eq, if_pos ⟨hauto, hcpu⟩]
  refine ⟨rfl, ?_, ?_, ?_, ?_⟩ <;> decide

/-- Witness for C7 on a concrete auto-on-CPU configuration. -/
theorem mainRun_auto_cpu_value_error_witness :
    ({ testConfig with grad_accum := GradAccum.auto, cuda := false
        } : MainConfig).grad_accum = GradAccum.auto
    ∧ ({ testConfig with grad_accum := GradAccum.auto, cuda := false
        } : MainConfig).cuda = false
    ∧ (mainRun (fun _ => []) (fun s => s)
          { testConfig with grad_accum := GradAccum.auto, cuda := false } =
        (.error (.valueError
          "grad_accum=\"auto\" requires training with a GPU; please specify grad_accum as an integer"),
         [Stage.seedAll, Stage.gradAccumCheck])
      ∧ Stage.buildModel ∉ (mainRun (fun _ => []) (fun s => s)
          { testConfig with grad_accum := GradAccum.auto, cuda := false }).2
      ∧ Stage.priorGeneration ∉ (mainRun (fun _ => []) (fun s => s)
          { testConfig with grad_accum := GradAccum.auto, cuda := false }).2
      ∧ Stage.dataloaders ∉ (mainRun (fun _ => []) (fun s => s)
          { testConfig with grad_accum := GradAccum.auto, cuda := false }).2
      ∧ Stage.training ∉ (mainRun (fun _ => []) (fun s => s)
          { testConfig with grad_accum := GradAccum.auto, cuda := false }).2) :=
  ⟨rfl, rfl,
   mainRun_auto_cpu_value_error (fun _ => []) (fun s => s)
     { testConfig with grad_accum := GradAccum.auto, cuda := false } rfl rfl⟩

/-- C8: `main` passes the keywords `train_unet` and
`num_images_per_prompt` to `build_stable_diffusion_model`, which has no
such parameters; whenever the grad-accum check passes, model construction
raises `TypeError`, and in every configuration `main` never reaches the
prior-preservation, dataloader or training stages. -/
theorem mainRun_build_model_kwargs_type_error
    (genImages : PromptBatch → List String) (sha1 : String → String)
    (cfg : MainConfig) :
    ("train_unet" ∈ mainBuildModelKwargs ∧ "train_unet" ∉ buildModelParams
      ∧ "num_images_per_prompt" ∈ mainBuildModelKwargs
      ∧ "num_images_per_prompt" ∉ buildModelParams)
    ∧ Stage.priorGeneration ∉ (mainRun genImages sha1 cfg).2
    ∧ Stage.dataloaders ∉ (mainRun genImages sha1 cfg).2
    ∧ Stage.training ∉ (mainRun genImages sha1 cfg).2
    ∧ (¬(cfg.grad_accum = GradAccum.auto ∧ cfg.cuda = false) →
        mainRun genImages sha1 cfg =
          (.error (.unexpectedKeywordArgument "build_stable_diffusion_model"
              "train_unet"),
           [Stage.seedAll, Stage.gradAccumCheck, Stage.batchSizeCalc,
            Stage.buildModel])) := by
  refine ⟨by decide, ?_, ?_, ?_, fun hc => by rw [mainRun_eq, if_neg hc]⟩ <;>
    · rw [mainRun_eq]
      split <;> decide

/-- Witness for C8 on a concrete GPU configuration. -/
theorem mainRun_build_model_kwargs_type_error_witness :
    ¬(testConfig.grad_accum = GradAccum.auto ∧ testConfig.cuda = false)
    ∧ mainRun (fun _ => []) (fun s => s) testConfig =
        (.error (.unexpectedKeywordArgument "build_stable_diffusion_model"
            "train_unet"),
         [Stage.seedAll, Stage.gradAccumCheck, Stage.batchSizeCalc,
          Stage.buildModel]) :=
  ⟨by decide,
   (mainRun_build_model_kwargs_type_error (fun _ => []) (fun s => s)
      testConfig).2.2.2.2 (by decide)⟩

/-- C9: the `model_name_or_path` argument of
`build_stable_diffusion_model` is dead — the body rebinds it to the
constant `"CompVis/stable-diffusion-v1-4"` before any loading, so any two
arguments produce identical results and every `from_pretrained` call uses
the constant path. -/
theorem build_model_ignores_model_name_or_path (a b : String)
    (train_text_encoder : Bool) (image_key caption_key : String) :
    build_stable_diffusion_model a train_text_encoder image_key caption_key
      = build_stable_diffusion_model b train_text_encoder image_key
          caption_key
    ∧ ((build_stable_diffusion_model a train_text_encoder image_key
          caption_key).loads.all
        (fun l => l.path == "CompVis/stable-diffusion-v1-4")) = true :=
  ⟨rfl, rfl⟩

/-- C5 (observed behavior at the failing input): with prior preservation
enabled and the class-image directory short of the configured count, the
pre-generation loop's first `model.generate(...)` call raises `TypeError`
on the unexpected `disable_progress_bar` keyword, so no image is written;
with the directory already at the configured count, zero images are
written. -/
theorem priorPreservationStep_type_error_when_short :
    priorPreservationStep (fun _ => ["imagebytes"]) (fun s => s) testConfig
      = .error (.unexpectedKeywordArgument "generate" "disable_progress_bar")
    ∧ priorPreservationStep (fun _ => ["imagebytes"]) (fun s => s)
        { testConfig with curClassImages := 1 } = .ok [] :=
  ⟨rfl, rfl⟩

end SD
